import Mathlib

/-!
Verification of the honeypot classification / threat-detection /
response-synthesis pipeline.

The definitions below are a shallow embedding of the Python sources:
`src/models.py`, `src/config.py`, `src/honeypot_classifier.py`,
`src/threat_analyzer.py`, `src/response_generator.py` and
`src/honeypot_orchestrator.py`.  Python dicts are embedded as ordered
association lists, Python strings as `String` (ASCII fragment of
`str.lower` / `urllib.parse.unquote`), machine floats used for the
simulated-delay bounds as `ℚ`, and exceptions as `Except String`.
-/

namespace Honeypot

/-- Membership test for a character in a list form of Python `str.lower`:
ASCII fragment of Python `str.lower()` (maps A-Z to a-z, like the inputs
the classifier and analyzer compare against). -/
def pyLower (s : String) : String :=
  ⟨s.toList.map Char.toLower⟩

/-- Whether `pat` is a prefix of `text`, by character equality. -/
def charsHavePre : List Char → List Char → Bool
  | [], _ => true
  | _ :: _, [] => false
  | p :: ps, t :: ts => p == t && charsHavePre ps ts

/-- Whether `pat` occurs as a contiguous substring of `text`:
embedding of the Python expression `pat in text` on strings. -/
def charsContain (pat : List Char) : List Char → Bool
  | [] => charsHavePre pat []
  | t :: ts => charsHavePre pat (t :: ts) || charsContain pat ts

/-- Embedding of the Python substring test `pat in s`. -/
def pyContains (s pat : String) : Bool :=
  charsContain pat.toList s.toList

/-- Hexadecimal digit test, both cases (as accepted by `unquote` and by
`[0-9a-f]` under `re.IGNORECASE`). -/
def isHexChar (c : Char) : Bool :=
  (('0'.toNat ≤ c.toNat) && (c.toNat ≤ '9'.toNat)) ||
  (('a'.toNat ≤ c.toNat) && (c.toNat ≤ 'f'.toNat)) ||
  (('A'.toNat ≤ c.toNat) && (c.toNat ≤ 'F'.toNat))

/-- Numeric value of a hexadecimal digit. -/
def hexVal (c : Char) : Nat :=
  if c.toNat ≤ '9'.toNat then c.toNat - '0'.toNat
  else if c.toNat ≤ 'F'.toNat then c.toNat - 'A'.toNat + 10
  else c.toNat - 'a'.toNat + 10

/-- ASCII fragment of `urllib.parse.unquote`: a percent sign followed by
two hexadecimal digits becomes the character with that code (multi-byte
sequences are modelled bytewise); anything else is copied through. -/
def unquoteAux : Nat → List Char → List Char
  | 0, _ => []
  | _ + 1, [] => []
  | fuel + 1, c :: rest =>
    if c == '%' then
      match rest with
      | a :: b :: rest2 =>
        if isHexChar a && isHexChar b then
          Char.ofNat (hexVal a * 16 + hexVal b) :: unquoteAux fuel rest2
        else
          '%' :: unquoteAux fuel rest
      | _ => c :: unquoteAux fuel rest
    else c :: unquoteAux fuel rest

/-- Entry point of the percent-decoding scan; the fuel, initially the
text length, strictly exceeds the length of every list recursed on, so
the zero-fuel branch is never taken. -/
def unquoteChars (l : List Char) : List Char :=
  unquoteAux l.length l

/-- Embedding of `urllib.parse.unquote` on strings. -/
def pyUnquote (s : String) : String :=
  ⟨unquoteChars s.toList⟩

/-- `HoneypotType` enumeration from `src/models.py`. -/
inductive HoneypotType where
  | ADMIN_PANEL
  | API_ENDPOINT
  | FILE_UPLOAD
  | BOT_TRAP
  | SSH_SIMULATION
  | VULNERABLE_WEBAPP
deriving DecidableEq, Repr

/-- `ThreatLevel` enumeration from `src/models.py`. -/
inductive ThreatLevel where
  | LOW
  | MEDIUM
  | HIGH
  | CRITICAL
deriving DecidableEq, Repr

/-- `RequestInfo` dataclass from `src/models.py`; the header and
query-parameter dicts are embedded as ordered association lists. -/
structure RequestInfo where
  timestamp : String
  session_id : String
  client_ip : String
  method : String
  path : String
  headers : List (String × String)
  query_params : List (String × String)
  body : String
  user_agent : String
  referer : String
  request_id : String
deriving DecidableEq, Repr

/-- `ThreatIndicator` dataclass from `src/models.py`. -/
structure ThreatIndicator where
  pattern : String
  category : String
  severity : ThreatLevel
  description : String
  matched_text : Option String := none
  location : Option String := none
deriving DecidableEq, Repr

/-- `HoneypotResponse` dataclass from `src/models.py`. -/
structure HoneypotResponse where
  status_code : Int
  headers : List (String × String)
  body : String
  content_type : String := "text/html"
deriving DecidableEq, Repr

/-- `HoneypotInteraction` dataclass from `src/models.py`; the elapsed
processing time in milliseconds is embedded as a rational. -/
structure HoneypotInteraction where
  request_info : RequestInfo
  honeypot_type : HoneypotType
  threat_indicators : List ThreatIndicator
  processing_time_ms : Option ℚ
deriving DecidableEq, Repr

/-- The behaviour-relevant fields of `HoneypotConfig` from
`src/config.py` (the simulated-delay bounds consumed by the response
generators), embedded as rationals. -/
structure HoneypotConfig where
  simulation_delay_min : ℚ
  simulation_delay_max : ℚ
deriving DecidableEq, Repr

/-- A classification rule from `src/honeypot_classifier.py`: the
`matches` predicate, the honeypot type it classifies to, and its
priority (higher wins). -/
structure ClassificationRule where
  rule_matches : RequestInfo → Bool
  honeypotType : HoneypotType
  priority : Int

/-- `AdminPanelRule.admin_paths` from `src/honeypot_classifier.py`. -/
def admin_paths : List String :=
  ["/admin", "/wp-admin", "/administrator", "/phpmyadmin",
   "/cpanel", "/webmin", "/panel", "/dashboard", "/control",
   "/manage", "/backend", "/cms", "/admin.php", "/wp-login.php"]

/-- `AdminPanelRule`: lower-cased path contains one of the admin paths;
priority 90. -/
def adminPanelRule : ClassificationRule where
  rule_matches := fun request_info =>
    admin_paths.any fun admin_path => pyContains (pyLower request_info.path) admin_path
  honeypotType := .ADMIN_PANEL
  priority := 90

/-- `ApiEndpointRule`: lower-cased path contains one of the API
indicators; priority 80. -/
def apiEndpointRule : ClassificationRule where
  rule_matches := fun request_info =>
    ["/api/", "/rest/", "/graphql", "/v1/", "/v2/", "/v3/",
     "api.", ".json", "/users", "/config", "/status"].any
      fun indicator => pyContains (pyLower request_info.path) indicator
  honeypotType := .API_ENDPOINT
  priority := 80

/-- Embedding of the Python expression `s.upper()` (ASCII fragment). -/
def pyUpper (s : String) : String :=
  ⟨s.toList.map Char.toUpper⟩

/-- Python `dict.get(key, default)` on an association-list dict. -/
def dictGet (d : List (String × String)) (key default : String) : String :=
  match d.lookup key with
  | some v => v
  | none => default

/-- `FileUploadRule`: upload-related path, or POST with a
`multipart/form-data` content type; priority 85. -/
def fileUploadRule : ClassificationRule where
  rule_matches := fun request_info =>
    let path := pyLower request_info.path
    let method := pyUpper request_info.method
    let content_type := pyLower (dictGet request_info.headers "content-type" "")
    let path_match := ["upload", "file", "attachment", "media", "documents"].any
      fun upload_path => pyContains path upload_path
    let is_multipart_post := method == "POST" && pyContains content_type "multipart/form-data"
    path_match || is_multipart_post
  honeypotType := .FILE_UPLOAD
  priority := 85

/-- `BotTrapRule`: lower-cased user agent contains one of the bot
indicators; priority 70. -/
def botTrapRule : ClassificationRule where
  rule_matches := fun request_info =>
    ["bot", "crawler", "spider", "scraper", "scanner",
     "curl", "wget", "python-requests", "go-http-client"].any
      fun indicator => pyContains (pyLower request_info.user_agent) indicator
  honeypotType := .BOT_TRAP
  priority := 70

/-- `SshSimulationRule`: lower-cased path contains one of the SSH
indicators; priority 75. -/
def sshSimulationRule : ClassificationRule where
  rule_matches := fun request_info =>
    ["ssh", "terminal", "console", "shell", "putty"].any
      fun indicator => pyContains (pyLower request_info.path) indicator
  honeypotType := .SSH_SIMULATION
  priority := 75

/-- `VulnerableWebappRule`: always matches (fallback); priority 10. -/
def vulnerableWebappRule : ClassificationRule where
  rule_matches := fun _ => true
  honeypotType := .VULNERABLE_WEBAPP
  priority := 10

/-- The default rule list built in `HoneypotClassifier.__init__`, in
registration order, before sorting. -/
def defaultRules : List ClassificationRule :=
  [adminPanelRule, apiEndpointRule, fileUploadRule,
   botTrapRule, sshSimulationRule, vulnerableWebappRule]

/-- Insert a rule into a priority-descending list, after every rule of
greater or equal priority (the rule being inserted was registered
earliest among the remaining ones, so this yields the stable sort). -/
def insertRuleDesc (r : ClassificationRule) : List ClassificationRule → List ClassificationRule
  | [] => [r]
  | x :: xs => if x.priority ≤ r.priority then r :: x :: xs else x :: insertRuleDesc r xs

/-- Extensional behaviour of `self.rules.sort(key=lambda rule:
rule.get_priority(), reverse=True)`: the stable sort of the rule list by
priority, highest first, registration order breaking ties. -/
def sortRulesDesc : List ClassificationRule → List ClassificationRule
  | [] => []
  | a :: l => insertRuleDesc a (sortRulesDesc l)

/-- `HoneypotClassifier.classify_request` generalised over the rule
list the classifier was constructed with (default rules plus any custom
rules, sorted at construction time): return the honeypot type of the
first matching rule in priority order, with a safe default should no
rule match. -/
def classifyWith (rules : List ClassificationRule) (request_info : RequestInfo) : HoneypotType :=
  match (sortRulesDesc rules).find? (fun rule => rule.rule_matches request_info) with
  | some rule => rule.honeypotType
  | none => .VULNERABLE_WEBAPP

/-- `HoneypotClassifier.classify_request` for a classifier constructed
with no custom rules. -/
def classify_request (request_info : RequestInfo) : HoneypotType :=
  classifyWith defaultRules request_info

/-- One token of a compiled detection pattern.  The regular expressions
in `THREAT_PATTERNS` use only literal characters, `\s+`, `\s*` and
`[0-9a-f]` (the latter always with a `\x7b2\x7d` counter, expanded here
into two tokens). -/
inductive PatTok where
  | lit (c : Char)
  | ws0
  | ws1
  | hexd
deriving DecidableEq, Repr

/-- ASCII fragment of the character class `\s` used by `re`. -/
def isPySpace (c : Char) : Bool :=
  c == ' ' || c == '\t' || c == '\n' || c == '\x0d' || c == '\x0b' || c == '\x0c'

/-- Greedy matching of `\s*` followed by the continuation `k`: consume
a whitespace character and retry, backtracking to `k` at the longest
suffix that lets the rest of the pattern succeed. -/
def wsAux (k : List Char → Option Nat) : List Char → Option Nat
  | [] => k []
  | x :: xs =>
    if isPySpace x then
      match wsAux k xs with
      | some n => some (n + 1)
      | none => k (x :: xs)
    else k (x :: xs)

/-- Length of the leftmost-greedy match of the token list at the head
of the text, under `re.IGNORECASE` (case-insensitive literals, both
hexadecimal digit cases); `none` when the pattern does not match here.
`re.MULTILINE` is irrelevant: no pattern contains an anchor. -/
def matchLen : List PatTok → List Char → Option Nat
  | [], _ => some 0
  | .lit p :: ts, xs =>
    match xs with
    | x :: xs2 => if p.toLower == x.toLower then (matchLen ts xs2).map (· + 1) else none
    | [] => none
  | .hexd :: ts, xs =>
    match xs with
    | x :: xs2 => if isHexChar x then (matchLen ts xs2).map (· + 1) else none
    | [] => none
  | .ws1 :: ts, xs =>
    match xs with
    | x :: xs2 => if isPySpace x then (wsAux (matchLen ts) xs2).map (· + 1) else none
    | [] => none
  | .ws0 :: ts, xs => wsAux (matchLen ts) xs

/-- `pattern.search(text)`: the text of the leftmost match (the value of
`match.group(0)`), or `none` when the pattern occurs nowhere. -/
def searchMatch (ts : List PatTok) : List Char → Option (List Char)
  | [] =>
    match matchLen ts [] with
    | some _ => some []
    | none => none
  | x :: xs =>
    match matchLen ts (x :: xs) with
    | some n => some ((x :: xs).take n)
    | none => searchMatch ts xs

/-- Boolean form of `pattern.search(text)`. -/
def searchB (ts : List PatTok) (xs : List Char) : Bool :=
  (searchMatch ts xs).isSome

/-- Literal-character token run. -/
def lits (s : String) : List PatTok :=
  s.toList.map PatTok.lit

/-- `THREAT_PATTERNS` from `src/config.py`: category, then for each
regular expression its source text and its compiled token list, in the
dict insertion order the analyzer iterates in. -/
def THREAT_PATTERNS : List (String × List (String × List PatTok)) :=
  [("sql_injection",
    [("union\\s+select", lits "union" ++ [.ws1] ++ lits "select"),
     ("drop\\s+table", lits "drop" ++ [.ws1] ++ lits "table"),
     ("insert\\s+into", lits "insert" ++ [.ws1] ++ lits "into"),
     ("delete\\s+from", lits "delete" ++ [.ws1] ++ lits "from")]),
   ("xss",
    [("<script", lits "<script"),
     ("javascript:", lits "javascript:"),
     ("onerror\\s*=", lits "onerror" ++ [.ws0] ++ lits "="),
     ("onload\\s*=", lits "onload" ++ [.ws0] ++ lits "=")]),
   ("directory_traversal",
    [("\\.\\./", lits "../"),
     ("\\.\\.\\\\", lits "..\\"),
     ("/etc/passwd", lits "/etc/passwd"),
     ("/etc/shadow", lits "/etc/shadow")]),
   ("command_injection",
    [("cmd\\s*=", lits "cmd" ++ [.ws0] ++ lits "="),
     ("exec\\s*\\(", lits "exec" ++ [.ws0] ++ lits "("),
     ("system\\s*\\(", lits "system" ++ [.ws0] ++ lits "("),
     ("eval\\s*\\(", lits "eval" ++ [.ws0] ++ lits "(")]),
   ("file_inclusion",
    [("/etc/passwd", lits "/etc/passwd"),
     ("php://input", lits "php://input"),
     ("data://", lits "data://"),
     ("file://", lits "file://")]),
   ("obfuscation",
    [("base64_decode", lits "base64_decode"),
     ("chr\\s*\\(", lits "chr" ++ [.ws0] ++ lits "("),
     ("hex\\s*\\(", lits "hex" ++ [.ws0] ++ lits "("),
     ("%[0-9a-f]\x7b2\x7d", [.lit '%', .hexd, .hexd])])]

/-- `SECURITY_TOOLS` from `src/config.py`. -/
def SECURITY_TOOLS : List String :=
  ["sqlmap", "nikto", "nmap", "burp", "metasploit", "nuclei",
   "gobuster", "dirb", "wfuzz", "hydra", "medusa", "john"]

/-- The `severity_mapping` dict inside
`ThreatAnalyzer._get_severity_for_category`. -/
def severityMapping : List (String × ThreatLevel) :=
  [("sql_injection", .HIGH),
   ("xss", .HIGH),
   ("command_injection", .CRITICAL),
   ("directory_traversal", .HIGH),
   ("file_inclusion", .HIGH),
   ("obfuscation", .MEDIUM),
   ("security_tool", .MEDIUM),
   ("automated_tool", .LOW)]

/-- `ThreatAnalyzer._get_severity_for_category`:
`severity_mapping.get(category, ThreatLevel.LOW)`. -/
def getSeverityForCategory (category : String) : ThreatLevel :=
  match severityMapping.lookup category with
  | some level => level
  | none => .LOW

/-- `ThreatAnalyzer._analyze_path`: URL-decode the path, then record one
indicator per matching pattern in every category. -/
def analyzePath (path : String) : List ThreatIndicator :=
  let decoded_path := pyUnquote path
  THREAT_PATTERNS.flatMap fun cp =>
    cp.2.flatMap fun pat =>
      if searchB pat.2 decoded_path.toList then
        [{ pattern := pat.1
           category := cp.1
           severity := getSeverityForCategory cp.1
           description := "Suspicious " ++ cp.1 ++ " pattern detected in path"
           matched_text := some decoded_path
           location := some "path" }]
      else []

/-- `ThreatAnalyzer._analyze_query_params`: flatten the parameters as
space-joined `key=value` pairs, return early when empty, URL-decode,
then record one indicator per matching pattern. -/
def analyzeQueryParams (query_params : List (String × String)) : List ThreatIndicator :=
  let query_string := String.intercalate " " (query_params.map fun kv => kv.1 ++ "=" ++ kv.2)
  if query_string == "" then []
  else
    let decoded_query := pyUnquote query_string
    THREAT_PATTERNS.flatMap fun cp =>
      cp.2.flatMap fun pat =>
        if searchB pat.2 decoded_query.toList then
          [{ pattern := pat.1
             category := cp.1
             severity := getSeverityForCategory cp.1
             description := "Suspicious " ++ cp.1 ++ " pattern detected in query parameters"
             matched_text := some decoded_query
             location := some "query_params" }]
        else []

/-- `ThreatAnalyzer._analyze_body`: return early when empty, URL-decode
(a decode failure would fall back to the raw body), then record one
indicator per matching pattern, keeping the matched substring. -/
def analyzeBody (body : String) : List ThreatIndicator :=
  if body == "" then []
  else
    let decoded_body := pyUnquote body
    THREAT_PATTERNS.flatMap fun cp =>
      cp.2.flatMap fun pat =>
        match searchMatch pat.2 decoded_body.toList with
        | some m =>
          [{ pattern := pat.1
             category := cp.1
             severity := getSeverityForCategory cp.1
             description := "Suspicious " ++ cp.1 ++ " pattern detected in request body"
             matched_text := some ⟨m⟩
             location := some "body" }]
        | none => []

/-- `ThreatAnalyzer._analyze_headers`: flatten the headers as
space-joined `key: value` pairs (no URL-decoding, no emptiness check),
then record one indicator per matching pattern, keeping the matched
substring. -/
def analyzeHeaders (headers : List (String × String)) : List ThreatIndicator :=
  let headers_string := String.intercalate " " (headers.map fun kv => kv.1 ++ ": " ++ kv.2)
  THREAT_PATTERNS.flatMap fun cp =>
    cp.2.flatMap fun pat =>
      match searchMatch pat.2 headers_string.toList with
      | some m =>
        [{ pattern := pat.1
           category := cp.1
           severity := getSeverityForCategory cp.1
           description := "Suspicious " ++ cp.1 ++ " pattern detected in headers"
           matched_text := some ⟨m⟩
           location := some "headers" }]
      | none => []

/-- `ThreatAnalyzer._analyze_user_agent`: substring checks of the
lower-cased user agent against the known security tools (producing
`security_tool`/MEDIUM indicators) and against the automation keywords
(producing `automated_tool`/LOW indicators); no category patterns are
applied to this surface. -/
def analyzeUserAgent (user_agent : String) : List ThreatIndicator :=
  if user_agent == "" then []
  else
    let user_agent_lower := pyLower user_agent
    (SECURITY_TOOLS.flatMap fun tool =>
      if pyContains user_agent_lower tool then
        [{ pattern := tool
           category := "security_tool"
           severity := .MEDIUM
           description := "Security tool detected: " ++ tool
           matched_text := some user_agent
           location := some "user_agent" }]
      else []) ++
    (["bot", "crawler", "spider", "scraper", "scanner"].flatMap fun indicator =>
      if pyContains user_agent_lower indicator then
        [{ pattern := indicator
           category := "automated_tool"
           severity := .LOW
           description := "Automated tool detected: " ++ indicator
           matched_text := some user_agent
           location := some "user_agent" }]
      else [])

/-- `ThreatAnalyzer.analyze_request`: concatenate the indicators of the
five analyzed surfaces. -/
def analyze_request (request_info : RequestInfo) : List ThreatIndicator :=
  analyzePath request_info.path ++
  analyzeQueryParams request_info.query_params ++
  analyzeBody request_info.body ++
  analyzeHeaders request_info.headers ++
  analyzeUserAgent request_info.user_agent

/-- The state of a `ThreatIntelligence` instance from
`src/threat_analyzer.py`: the `_known_malicious_ips` set (empty after
`__init__`), embedded as a list. -/
structure ThreatIntelligenceState where
  known_malicious_ips : List String
deriving DecidableEq, Repr

/-- `ThreatIntelligence._is_known_malicious_ip`: set membership. -/
def isKnownMaliciousIp (ti : ThreatIntelligenceState) (ip_address : String) : Bool :=
  ti.known_malicious_ips.contains ip_address

/-- The `ip_reputation` indicator appended by
`ThreatIntelligence.enrich_threats` for a blocklisted client IP. -/
def ipReputationIndicator (client_ip : String) : ThreatIndicator where
  pattern := "known_malicious_ip"
  category := "ip_reputation"
  severity := .HIGH
  description := "Request from known malicious IP address"
  matched_text := some client_ip
  location := some "source_ip"

/-- `ThreatIntelligence.enrich_threats`: copy the input list, then
append one `ip_reputation` indicator when the client IP is known
malicious. -/
def enrich_threats (ti : ThreatIntelligenceState) (indicators : List ThreatIndicator)
    (request_info : RequestInfo) : List ThreatIndicator :=
  let enriched := indicators
  if isKnownMaliciousIp ti request_info.client_ip then
    enriched ++ [ipReputationIndicator request_info.client_ip]
  else
    enriched

/-- `RESPONSE_TEMPLATES['admin_panel_login']` from `src/config.py`,
already composed with `str.format` on its `error_message` placeholder
(the doubled braces of the template render as single braces). -/
def adminPanelLoginTemplate (error_message : String) : String :=
  "\n        <html>\n        <head>\n            <title>Admin Panel Login</title>\n            <style>\n                body \x7b font-family: Arial, sans-serif; margin: 40px; \x7d\n                .login-form \x7b max-width: 400px; margin: 0 auto; padding: 20px; border: 1px solid #ddd; \x7d\n                input \x7b width: 100%; padding: 10px; margin: 10px 0; \x7d\n                .error \x7b color: red; margin: 10px 0; \x7d\n            </style>\n        </head>\n        <body>\n            <div class=\"login-form\">\n                <h2>Administrator Login</h2>\n                "
  ++ error_message ++
  "\n                <form method=\"post\">\n                    <input type=\"text\" name=\"username\" placeholder=\"Username\" required>\n                    <input type=\"password\" name=\"password\" placeholder=\"Password\" required>\n                    <input type=\"submit\" value=\"Login\">\n                </form>\n                <p><small>Powered by AdminPanel v2.1.3</small></p>\n            </div>\n        </body>\n        </html>\n    "

/-- `AdminPanelResponseGenerator._generate_login_failure_response`: the
simulated authentication delay (the value drawn by `random.uniform`,
passed in as `draw`) followed by the fixed 401 response carrying the
session cookie.  The first component is the list of delays slept, in
order. -/
def generateLoginFailureResponse (draw : ℚ) (request_info : RequestInfo) :
    List ℚ × HoneypotResponse :=
  ([draw],
   { status_code := 401
     headers :=
       [("Set-Cookie", "session_id=" ++ request_info.session_id ++ "; HttpOnly; Secure"),
        ("Cache-Control", "no-cache, no-store, must-revalidate")]
     body := adminPanelLoginTemplate
       "<div class=\"error\">Invalid username or password. Please try again.</div>"
     content_type := "text/html" })

/-- `AdminPanelResponseGenerator._generate_login_form_response`. -/
def generateLoginFormResponse : HoneypotResponse where
  status_code := 200
  headers := [("Cache-Control", "no-cache")]
  body := adminPanelLoginTemplate ""
  content_type := "text/html"

/-- `AdminPanelResponseGenerator.generate_response`: POST gets the
delayed login failure, anything else the login form.  `draw` is the
value `random.uniform(simulation_delay_min, simulation_delay_max)`
would return for the POST branch. -/
def adminPanelGenerateResponse (draw : ℚ) (request_info : RequestInfo) :
    List ℚ × HoneypotResponse :=
  if request_info.method == "POST" then
    generateLoginFailureResponse draw request_info
  else
    ([], generateLoginFormResponse)

/-- `json.dumps(fake_users, indent=2)` from
`ApiEndpointResponseGenerator._generate_users_response`, with the
`datetime.utcnow().isoformat()` timestamp passed in as `now`. -/
def fakeUsersJson (now : String) : String :=
  "\x7b\n  \"users\": [\n    \x7b\n      \"id\": 1,\n      \"username\": \"admin\",\n      \"email\": \"admin@company.com\",\n      \"role\": \"administrator\"\n    \x7d,\n    \x7b\n      \"id\": 2,\n      \"username\": \"user1\",\n      \"email\": \"user1@company.com\",\n      \"role\": \"user\"\n    \x7d,\n    \x7b\n      \"id\": 3,\n      \"username\": \"test\",\n      \"email\": \"test@company.com\",\n      \"role\": \"tester\"\n    \x7d,\n    \x7b\n      \"id\": 4,\n      \"username\": \"developer\",\n      \"email\": \"dev@company.com\",\n      \"role\": \"developer\"\n    \x7d\n  ],\n  \"total\": 4,\n  \"api_version\": \"1.2.3\",\n  \"timestamp\": \""
  ++ now ++ "\"\n\x7d"

/-- `ApiEndpointResponseGenerator._generate_users_response`. -/
def generateUsersResponse (now : String) : HoneypotResponse where
  status_code := 200
  headers := [("X-API-Version", "1.2.3")]
  body := fakeUsersJson now
  content_type := "application/json"

/-- `json.dumps(fake_config, indent=2)` from
`ApiEndpointResponseGenerator._generate_config_response`, with the
timestamp passed in as `now`. -/
def fakeConfigJson (now : String) : String :=
  "\x7b\n  \"database\": \x7b\n    \"host\": \"db.internal.company.com\",\n    \"port\": 5432,\n    \"name\": \"production_db\",\n    \"ssl\": true\n  \x7d,\n  \"cache\": \x7b\n    \"redis_host\": \"cache.internal.company.com\",\n    \"ttl\": 3600\n  \x7d,\n  \"features\": \x7b\n    \"debug_mode\": false,\n    \"maintenance_mode\": false,\n    \"new_user_registration\": true\n  \x7d,\n  \"api_keys\": \x7b\n    \"stripe\": \"sk_live_51ABC123...\",\n    \"sendgrid\": \"SG.ABC123...\",\n    \"aws\": \"AKIA...\"\n  \x7d,\n  \"version\": \"1.2.3\",\n  \"last_updated\": \""
  ++ now ++ "\"\n\x7d"

/-- `ApiEndpointResponseGenerator._generate_config_response`. -/
def generateConfigResponse (now : String) : HoneypotResponse where
  status_code := 200
  headers := [("X-API-Version", "1.2.3")]
  body := fakeConfigJson now
  content_type := "application/json"

/-- `json.dumps(error_response, indent=2)` from
`ApiEndpointResponseGenerator._generate_api_error_response`. -/
def apiErrorJson (now path : String) : String :=
  "\x7b\n  \"error\": \"Endpoint not found\",\n  \"message\": \"The requested endpoint \x27"
  ++ path ++
  "\x27 does not exist\",\n  \"available_endpoints\": [\n    \"/api/users\",\n    \"/api/config\",\n    \"/api/status\",\n    \"/api/health\"\n  ],\n  \"api_version\": \"1.2.3\",\n  \"timestamp\": \""
  ++ now ++ "\"\n\x7d"

/-- `ApiEndpointResponseGenerator._generate_api_error_response`. -/
def generateApiErrorResponse (now path : String) : HoneypotResponse where
  status_code := 404
  headers := [("X-API-Version", "1.2.3")]
  body := apiErrorJson now path
  content_type := "application/json"

/-- `ApiEndpointResponseGenerator.generate_response`: dispatch on the
lower-cased path, `users` before `config`, otherwise the 404 error. -/
def apiEndpointGenerateResponse (now : String) (request_info : RequestInfo) : HoneypotResponse :=
  let path := pyLower request_info.path
  if pyContains path "users" then generateUsersResponse now
  else if pyContains path "config" then generateConfigResponse now
  else generateApiErrorResponse now path

/-- The HTTP-shaped dict returned by the orchestrator
(`HoneypotResponse.to_lambda_response` or
`HoneypotOrchestrator._create_error_response`). -/
structure LambdaResponse where
  statusCode : Int
  headers : List (String × String)
  body : String
deriving DecidableEq, Repr

/-- `HoneypotResponse.to_lambda_response`: merge the content type into
the header dict. -/
def toLambdaResponse (resp : HoneypotResponse) : LambdaResponse where
  statusCode := resp.status_code
  headers := ("Content-Type", resp.content_type) :: resp.headers
  body := resp.body

/-- `HoneypotOrchestrator._create_error_response`. -/
def createErrorResponse (message : String) (status_code : Int) : LambdaResponse where
  statusCode := status_code
  headers := [("Content-Type", "text/html")]
  body :=
    "\n            <html>\n            <head><title>Error " ++ toString status_code ++
    "</title></head>\n            <body>\n                <h1>Error " ++ toString status_code ++
    "</h1>\n                <p>" ++ message ++
    "</p>\n            </body>\n            </html>\n            "

/-- `HoneypotOrchestrator._create_fallback_response`. -/
def fallbackResponse : HoneypotResponse where
  status_code := 200
  headers := []
  body := "\n            <html>\n            <head><title>Welcome</title></head>\n            <body>\n                <h1>Welcome</h1>\n                <p>This is a basic web server.</p>\n            </body>\n            </html>\n            "
  content_type := "text/html"

/-- One invocation of the orchestrator, with each collaborator's
outcome made explicit: a stage that would raise is embedded as
`Except.error`.  `processing_time_ms` is the elapsed time measured for
the interaction record. -/
structure PipelineEnv where
  parse_result : Except String RequestInfo
  validate_result : RequestInfo → Except String Bool
  analyze_result : RequestInfo → Except String (List ThreatIndicator)
  enrich_result : List ThreatIndicator → RequestInfo → Except String (List ThreatIndicator)
  classify_result : RequestInfo → Except String HoneypotType
  response_result : HoneypotType → RequestInfo → Except String HoneypotResponse
  telemetry_result : HoneypotInteraction → Except String Unit
  processing_time_ms : ℚ

/-- `HoneypotOrchestrator._parse_request`: a parser fault is caught and
becomes `None`. -/
def parseRequestStage (env : PipelineEnv) : Option RequestInfo :=
  match env.parse_result with
  | .ok request_info => some request_info
  | .error _ => none

/-- `HoneypotOrchestrator._validate_request`: a validator fault is
caught and becomes `False`. -/
def validateRequestStage (env : PipelineEnv) (request_info : RequestInfo) : Bool :=
  match env.validate_result request_info with
  | .ok b => b
  | .error _ => false

/-- `HoneypotOrchestrator._analyze_threats`: detection then enrichment
inside one exception handler — a fault raised by either call yields the
empty indicator list. -/
def analyzeThreatsStage (env : PipelineEnv) (request_info : RequestInfo) : List ThreatIndicator :=
  match env.analyze_result request_info with
  | .error _ => []
  | .ok threat_indicators =>
    match env.enrich_result threat_indicators request_info with
    | .error _ => []
    | .ok enriched_indicators => enriched_indicators

/-- `HoneypotOrchestrator._classify_honeypot`: a classifier fault falls
back to the default honeypot type. -/
def classifyHoneypotStage (env : PipelineEnv) (request_info : RequestInfo) : HoneypotType :=
  match env.classify_result request_info with
  | .ok honeypot_type => honeypot_type
  | .error _ => .VULNERABLE_WEBAPP

/-- `HoneypotOrchestrator._generate_response`: a generator fault falls
back to the basic response. -/
def generateResponseStage (env : PipelineEnv) (honeypot_type : HoneypotType)
    (request_info : RequestInfo) : HoneypotResponse :=
  match env.response_result honeypot_type request_info with
  | .ok resp => resp
  | .error _ => fallbackResponse

/-- `HoneypotOrchestrator.process_request`: the full pipeline.  The
second component is the list of interaction records handed to
`_record_interaction` (the telemetry sink), in order; the sink's own
outcome is swallowed and never shapes the response. -/
def process_request (env : PipelineEnv) : LambdaResponse × List HoneypotInteraction :=
  match parseRequestStage env with
  | none => (createErrorResponse "Invalid request format" 400, [])
  | some request_info =>
    if !validateRequestStage env request_info then
      (createErrorResponse "Request validation failed" 400, [])
    else
      let threat_indicators := analyzeThreatsStage env request_info
      let honeypot_type := classifyHoneypotStage env request_info
      let response := generateResponseStage env honeypot_type request_info
      let interaction : HoneypotInteraction :=
        { request_info := request_info
          honeypot_type := honeypot_type
          threat_indicators := threat_indicators
          processing_time_ms := some env.processing_time_ms }
      let _ := env.telemetry_result interaction
      (toLambdaResponse response, [interaction])

/-- The category → severity table stated by the specification (§4.1),
written from the specification's words for comparison with the
analyzer's output. -/
def severityClaimTable : List (String × ThreatLevel) :=
  [("sql_injection", .HIGH),
   ("xss", .HIGH),
   ("command_injection", .CRITICAL),
   ("directory_traversal", .HIGH),
   ("file_inclusion", .HIGH),
   ("obfuscation", .MEDIUM),
   ("security_tool", .MEDIUM),
   ("automated_tool", .LOW)]

/-- The rule-resolution order stated by the specification, computed
directly on the registration-ordered rule list: the matching rule of
maximal priority, the earliest-registered one on ties. -/
def firstBestMatch (request_info : RequestInfo) : List ClassificationRule → Option ClassificationRule
  | [] => none
  | x :: xs =>
    match firstBestMatch request_info xs with
    | none => if x.rule_matches request_info then some x else none
    | some y =>
      if x.rule_matches request_info then
        if x.priority < y.priority then some y else some x
      else some y

/-- A benign concrete request used as a base for concrete instances. -/
def baseRequest : RequestInfo where
  timestamp := "2025-01-01T00:00:00"
  session_id := "cafe01234567"
  client_ip := "203.0.113.7"
  method := "GET"
  path := "/"
  headers := []
  query_params := []
  body := ""
  user_agent := ""
  referer := ""
  request_id := "req-1"

/-- A request whose path contains the substring `admin.php` but none of
the classifier's `admin_paths` entries (which all carry a leading
slash, including `/admin.php`). -/
def dashAdminRequest : RequestInfo :=
  { baseRequest with path := "/x-admin.php" }

/-- A request whose user agent contains the `xss` detection pattern
`<script` but no security-tool or automation signature. -/
def scriptAgentRequest : RequestInfo :=
  { baseRequest with user_agent := "<script>alert(1)" }

/-- A request whose path is the `/etc/passwd` detection pattern. -/
def passwdRequest : RequestInfo :=
  { baseRequest with path := "/etc/passwd" }

/-- The `directory_traversal` indicator the analyzer produces for
`passwdRequest`. -/
def passwdIndicator : ThreatIndicator where
  pattern := "/etc/passwd"
  category := "directory_traversal"
  severity := .HIGH
  description := "Suspicious directory_traversal pattern detected in path"
  matched_text := some "/etc/passwd"
  location := some "path"

/-- A request carrying the `sqlmap` security-tool user agent. -/
def sqlmapRequest : RequestInfo :=
  { baseRequest with user_agent := "sqlmap/1.5.2" }

/-- The `security_tool` indicator the analyzer produces for
`sqlmapRequest`. -/
def sqlmapIndicator : ThreatIndicator where
  pattern := "sqlmap"
  category := "security_tool"
  severity := .MEDIUM
  description := "Security tool detected: sqlmap"
  matched_text := some "sqlmap/1.5.2"
  location := some "user_agent"

/-- A request that matches both the bot-trap rule (through its user
agent) and the admin-panel rule (through its path). -/
def adminCurlRequest : RequestInfo :=
  { baseRequest with path := "/admin", user_agent := "curl/8.0" }

/-- A two-rule registration order putting the lower-priority bot-trap
rule first, to exercise priority precedence. -/
def botFirstRules : List ClassificationRule :=
  [botTrapRule, adminPanelRule]

/-- A pipeline invocation on which every collaborator succeeds. -/
def okEnv : PipelineEnv where
  parse_result := .ok baseRequest
  validate_result := fun _ => .ok true
  analyze_result := fun _ => .ok []
  enrich_result := fun indicators _ => .ok indicators
  classify_result := fun _ => .ok .VULNERABLE_WEBAPP
  response_result := fun _ _ => .ok fallbackResponse
  telemetry_result := fun _ => .ok ()
  processing_time_ms := 3

/-- A pipeline invocation on which the request normalizer raises. -/
def parseFailEnv : PipelineEnv :=
  { okEnv with parse_result := .error "Failed to parse Lambda event: missing event data" }

/-- A sample detection-stage indicator. -/
def detectionIndicator : ThreatIndicator where
  pattern := "<script"
  category := "xss"
  severity := .HIGH
  description := "Suspicious xss pattern detected in request body"
  matched_text := some "<script"
  location := some "body"

/-- A pipeline invocation on which detection succeeds with one
indicator and enrichment raises. -/
def enrichFailEnv : PipelineEnv :=
  { okEnv with
    analyze_result := fun _ => .ok [detectionIndicator]
    enrich_result := fun _ _ => .error "enrichment failed" }

/-- The delay bounds of the default configuration
(`simulation_delay_min = 0.5`, `simulation_delay_max = 2.0`). -/
def defaultDelayConfig : HoneypotConfig where
  simulation_delay_min := 1 / 2
  simulation_delay_max := 2

/-- A POST to the admin panel. -/
def adminPostRequest : RequestInfo :=
  { baseRequest with method := "POST", path := "/admin" }

/-- The default rule list in priority order, as sorted by the
classifier's constructor. -/
theorem sortedDefaultRules :
    sortRulesDesc defaultRules =
      [adminPanelRule, fileUploadRule, apiEndpointRule,
       sshSimulationRule, botTrapRule, vulnerableWebappRule] := rfl

/-- A search through a list ending in an element satisfying the
predicate always finds something. -/
theorem find?_concat_true {α : Type} (l : List α) (p : α → Bool) (a : α) (h : p a = true) :
    ∃ b, (l ++ [a]).find? p = some b := by
  induction l with
  | nil => exact ⟨a, by simp [List.find?, h]⟩
  | cons x xs ih =>
    cases hx : p x with
    | true => exact ⟨x, by simp [List.find?_cons, hx]⟩
    | false =>
      obtain ⟨b, hb⟩ := ih
      exact ⟨b, by simp [List.find?_cons, hx, hb]⟩

/-- C1: classification is total — the catch-all `VulnerableWebappRule`
(priority 10) matches every request, so for every `RequestInfo` value
the sorted rule chain contains a matching rule and `classify_request`
returns that rule's honeypot type; the defensive default branch is
never taken. -/
theorem c1_classification_total (request_info : RequestInfo) :
    vulnerableWebappRule.rule_matches request_info = true ∧
    ∃ rule, (sortRulesDesc defaultRules).find? (fun r => r.rule_matches request_info) = some rule ∧
      classify_request request_info = rule.honeypotType := by
  refine ⟨rfl, ?_⟩
  obtain ⟨b, hb⟩ := find?_concat_true
    [adminPanelRule, fileUploadRule, apiEndpointRule, sshSimulationRule, botTrapRule]
    (fun r => r.rule_matches request_info) vulnerableWebappRule rfl
  have hb6 : (sortRulesDesc defaultRules).find? (fun r => r.rule_matches request_info) = some b := hb
  refine ⟨b, hb6, ?_⟩
  unfold classify_request classifyWith
  rw [hb6]

/-- C7 (amended): the classifier's admin-path list carries a leading
slash on every entry — `/admin.php` and `/wp-login.php` rather than the
bare `admin.php` / `wp-login.php` — so it is a request whose lower-cased
path contains one of those fourteen `/`-prefixed strings that is
classified `ADMIN_PANEL` (priority 90, the highest, checked first). -/
theorem c7_admin_path_classification (request_info : RequestInfo)
    (h : (admin_paths.any fun admin_path =>
        pyContains (pyLower request_info.path) admin_path) = true) :
    classify_request request_info = .ADMIN_PANEL := by
  have hm : adminPanelRule.rule_matches request_info = true := h
  unfold classify_request classifyWith
  rw [sortedDefaultRules]
  simp only [List.find?_cons, hm]
  rfl

/-- C7 (amended) at a concrete input: `/admin` is classified
`ADMIN_PANEL`. -/
theorem c7_admin_path_classification_witness :
    classify_request { baseRequest with path := "/admin" } = .ADMIN_PANEL :=
  c7_admin_path_classification { baseRequest with path := "/admin" } (by decide)

/-- C7 counterexample: the path `/x-admin.php` contains `admin.php`
(case-insensitively) yet is classified `VULNERABLE_WEBAPP`, not
`ADMIN_PANEL`, because every entry of `admin_paths` carries a leading
slash. -/
theorem c7_counterexample :
    pyContains (pyLower dashAdminRequest.path) "admin.php" = true ∧
    classify_request dashAdminRequest = .VULNERABLE_WEBAPP ∧
    HoneypotType.VULNERABLE_WEBAPP ≠ HoneypotType.ADMIN_PANEL :=
  ⟨by decide, by decide, by decide⟩

/-- C8: enrichment is append-only — the output of `enrich_threats`
begins with exactly the input indicators, unchanged and in order, and
the appended tail is one `ip_reputation`/HIGH indicator exactly when
the client IP is in the blocklist set, empty otherwise. -/
theorem c8_enrich_append_only (ti : ThreatIntelligenceState)
    (indicators : List ThreatIndicator) (request_info : RequestInfo) :
    (enrich_threats ti indicators request_info).take indicators.length = indicators ∧
    (enrich_threats ti indicators request_info).drop indicators.length =
      (if isKnownMaliciousIp ti request_info.client_ip then
        [ipReputationIndicator request_info.client_ip] else []) ∧
    (ipReputationIndicator request_info.client_ip).category = "ip_reputation" ∧
    (ipReputationIndicator request_info.client_ip).severity = .HIGH := by
  unfold enrich_threats
  refine ⟨?_, ?_, rfl, rfl⟩ <;>
    by_cases hip : isKnownMaliciousIp ti request_info.client_ip <;>
    simp [hip, List.take_left, List.drop_left, List.take_length, List.drop_length]

set_option maxRecDepth 100000 in
/-- The fixed login-failure body contains the invalid-credentials
text. -/
theorem loginFailureBodyHasText :
    pyContains (adminPanelLoginTemplate
      "<div class=\"error\">Invalid username or password. Please try again.</div>")
      "Invalid username or password" = true := by decide

/-- C9: for the admin-panel persona, a POST first sleeps for the value
drawn by `random.uniform` from the configured interval, then answers
401 with the fixed invalid-credentials body and a `Set-Cookie` header
built from the request's session id; a GET answers the login form with
status 200. -/
theorem c9_admin_panel_post (config : HoneypotConfig) (draw : ℚ) (request_info : RequestInfo)
    (hmin : config.simulation_delay_min ≤ draw) (hmax : draw ≤ config.simulation_delay_max) :
    (request_info.method = "POST" →
      (adminPanelGenerateResponse draw request_info).1 = [draw] ∧
      config.simulation_delay_min ≤ draw ∧ draw ≤ config.simulation_delay_max ∧
      (adminPanelGenerateResponse draw request_info).2.status_code = 401 ∧
      pyContains (adminPanelGenerateResponse draw request_info).2.body
        "Invalid username or password" = true ∧
      (adminPanelGenerateResponse draw request_info).2.headers.lookup "Set-Cookie" =
        some ("session_id=" ++ request_info.session_id ++ "; HttpOnly; Secure")) ∧
    (request_info.method = "GET" →
      (adminPanelGenerateResponse draw request_info).1 = [] ∧
      (adminPanelGenerateResponse draw request_info).2 = generateLoginFormResponse ∧
      (adminPanelGenerateResponse draw request_info).2.status_code = 200) := by
  constructor
  · intro hpost
    have hb : (request_info.method == "POST") = true := by simp [hpost]
    have he : adminPanelGenerateResponse draw request_info =
        generateLoginFailureResponse draw request_info := by
      simp [adminPanelGenerateResponse, hb]
    rw [he]
    exact ⟨rfl, hmin, hmax, rfl, loginFailureBodyHasText, rfl⟩
  · intro hget
    have hb : (request_info.method == "POST") = false := by rw [hget]; decide
    have he : adminPanelGenerateResponse draw request_info =
        ([], generateLoginFormResponse) := by
      simp [adminPanelGenerateResponse, hb]
    rw [he]
    exact ⟨rfl, rfl, rfl⟩

/-- C9 at a concrete input: a POST to `/admin` with a drawn delay of 1
second sleeps once, answers 401 and carries the fixed body text. -/
theorem c9_admin_panel_post_witness :
    (adminPanelGenerateResponse 1 adminPostRequest).1 = [1] ∧
    (adminPanelGenerateResponse 1 adminPostRequest).2.status_code = 401 ∧
    pyContains (adminPanelGenerateResponse 1 adminPostRequest).2.body
      "Invalid username or password" = true := by
  have h := c9_admin_panel_post defaultDelayConfig 1 adminPostRequest
    (by norm_num [defaultDelayConfig]) (by norm_num [defaultDelayConfig])
  obtain ⟨h1, -, -, h4, h5, -⟩ := h.1 rfl
  exact ⟨h1, h4, h5⟩

/-- C10: for the API-endpoint persona, a path containing both `users`
and `config` (case-insensitively) gets the fabricated user-list
response with status 200 — the `users` branch precedes the `config`
branch — and the 404 endpoint-not-found response happens exactly when
the path contains neither substring. -/
theorem c10_api_users_over_config (now : String) (request_info : RequestInfo) :
    (pyContains (pyLower request_info.path) "users" = true →
      pyContains (pyLower request_info.path) "config" = true →
      apiEndpointGenerateResponse now request_info = generateUsersResponse now ∧
      (apiEndpointGenerateResponse now request_info).status_code = 200) ∧
    ((apiEndpointGenerateResponse now request_info).status_code = 404 ↔
      pyContains (pyLower request_info.path) "users" = false ∧
      pyContains (pyLower request_info.path) "config" = false) := by
  cases hu : pyContains (pyLower request_info.path) "users" with
  | true =>
    have he : apiEndpointGenerateResponse now request_info = generateUsersResponse now := by
      simp [apiEndpointGenerateResponse, hu]
    rw [he]
    refine ⟨fun _ _ => ⟨rfl, rfl⟩, ?_⟩
    constructor
    · intro h200; exact absurd h200 (by norm_num [generateUsersResponse])
    · rintro ⟨hfu, -⟩; exact absurd hfu (by decide)
  | false =>
    cases hc : pyContains (pyLower request_info.path) "config" with
    | true =>
      have he : apiEndpointGenerateResponse now request_info = generateConfigResponse now := by
        simp [apiEndpointGenerateResponse, hu, hc]
      rw [he]
      refine ⟨fun hu2 _ => absurd hu2 (by decide), ?_⟩
      constructor
      · intro h200; exact absurd h200 (by norm_num [generateConfigResponse])
      · rintro ⟨-, hfc⟩; exact absurd hfc (by decide)
    | false =>
      have he : apiEndpointGenerateResponse now request_info =
          generateApiErrorResponse now (pyLower request_info.path) := by
        simp [apiEndpointGenerateResponse, hu, hc]
      rw [he]
      exact ⟨fun hu2 _ => absurd hu2 (by decide), fun _ => ⟨rfl, rfl⟩, fun _ => rfl⟩

/-- C10 at a concrete input: `/api/users/config` gets the user-list
response. -/
theorem c10_api_users_over_config_witness :
    apiEndpointGenerateResponse "T" { baseRequest with path := "/api/users/config" } =
      generateUsersResponse "T" :=
  ((c10_api_users_over_config "T" { baseRequest with path := "/api/users/config" }).1
    (by decide) (by decide)).1

/-- C2 (amended): one interaction record is assembled and handed to the
telemetry sink exactly when parsing and validation succeed; a parse or
validation failure returns the 400 response with no interaction record
emitted.  Failures of detection, enrichment, classification, response
synthesis or the sink itself never change the emission count. -/
theorem c2_interaction_emission (env : PipelineEnv) :
    (process_request env).2.length ≤ 1 ∧
    (parseRequestStage env = none → (process_request env).2 = []) ∧
    (∀ request_info, parseRequestStage env = some request_info →
      validateRequestStage env request_info = false → (process_request env).2 = []) ∧
    (∀ request_info, parseRequestStage env = some request_info →
      validateRequestStage env request_info = true → (process_request env).2.length = 1) := by
  cases hp : parseRequestStage env with
  | none =>
    have hpr : (process_request env).2 = [] := by simp [process_request, hp]
    refine ⟨by simp [hpr], fun _ => hpr, fun _ _ _ => hpr, fun ri hri _ => ?_⟩
    exact absurd hri (by simp)
  | some ri =>
    cases hv : validateRequestStage env ri with
    | false =>
      have hpr : (process_request env).2 = [] := by simp [process_request, hp, hv]
      refine ⟨by simp [hpr], fun hno => ?_, fun _ _ _ => hpr, fun ri' hri' hv' => ?_⟩
      · exact absurd hno (by simp)
      · injection hri' with h
        subst h
        simp [hv] at hv'
    | true =>
      have hpr : (process_request env).2.length = 1 := by simp [process_request, hp, hv]
      refine ⟨by simp [hpr], fun hno => ?_, fun ri' hri' hv' => ?_, fun _ _ _ => hpr⟩
      · exact absurd hno (by simp)
      · injection hri' with h
        subst h
        simp [hv] at hv'

/-- C2 (amended) at a concrete input: a fully successful invocation
emits exactly one interaction record. -/
theorem c2_interaction_emission_witness :
    (process_request okEnv).2.length = 1 :=
  (c2_interaction_emission okEnv).2.2.2 baseRequest rfl rfl

/-- C2 counterexample: when the request normalizer raises, the pipeline
returns the 400 response and hands no interaction record to the
telemetry sink — not exactly one. -/
theorem c2_counterexample :
    (process_request parseFailEnv).2 = [] ∧
    (process_request parseFailEnv).1.statusCode = 400 :=
  ⟨rfl, rfl⟩

/-- C3 (amended): a fault raised by the enrichment stage makes the
whole threat-analysis stage degrade to the empty indicator list — the
indicators already produced by detection are discarded, not kept,
because detection and enrichment share one exception handler. -/
theorem c3_enrichment_failure_discards (env : PipelineEnv) (request_info : RequestInfo)
    (indicators : List ThreatIndicator) (e : String)
    (ha : env.analyze_result request_info = .ok indicators)
    (he : env.enrich_result indicators request_info = .error e) :
    analyzeThreatsStage env request_info = [] := by
  simp [analyzeThreatsStage, ha, he]

/-- C3 (amended) at a concrete input: detection found one indicator,
enrichment raised, and the stage output is empty. -/
theorem c3_enrichment_failure_discards_witness :
    analyzeThreatsStage enrichFailEnv baseRequest = [] :=
  c3_enrichment_failure_discards enrichFailEnv baseRequest [detectionIndicator]
    "enrichment failed" rfl rfl

/-- C3 counterexample: detection produced the `xss` indicator and the
enrichment stage raised, yet the stage returns the empty list instead
of keeping the prior indicator. -/
theorem c3_counterexample :
    enrichFailEnv.analyze_result baseRequest = .ok [detectionIndicator] ∧
    enrichFailEnv.enrich_result [detectionIndicator] baseRequest = .error "enrichment failed" ∧
    analyzeThreatsStage enrichFailEnv baseRequest = [] :=
  ⟨rfl, rfl, rfl⟩

/-- Membership in an insertion is membership in the parts. -/
theorem mem_insertRuleDesc {a r : ClassificationRule} {L : List ClassificationRule} :
    a ∈ insertRuleDesc r L ↔ a = r ∨ a ∈ L := by
  induction L with
  | nil => simp [insertRuleDesc]
  | cons x xs ih =>
    unfold insertRuleDesc
    by_cases h : x.priority ≤ r.priority
    · simp [h]
    · simp [h, ih]
      tauto

/-- Insertion preserves the priority-descending invariant. -/
theorem pairwise_insertRuleDesc (r : ClassificationRule) (L : List ClassificationRule)
    (h : L.Pairwise (fun a b => b.priority ≤ a.priority)) :
    (insertRuleDesc r L).Pairwise (fun a b => b.priority ≤ a.priority) := by
  induction L with
  | nil => simp [insertRuleDesc]
  | cons x xs ih =>
    rw [List.pairwise_cons] at h
    obtain ⟨hx, hxs⟩ := h
    unfold insertRuleDesc
    by_cases hp : x.priority ≤ r.priority
    · rw [if_pos hp]
      refine List.pairwise_cons.2 ⟨?_, List.pairwise_cons.2 ⟨hx, hxs⟩⟩
      intro b hb
      rcases List.mem_cons.1 hb with rfl | hbxs
      · exact hp
      · exact le_trans (hx b hbxs) hp
    · rw [if_neg hp]
      refine List.pairwise_cons.2 ⟨?_, ih hxs⟩
      intro b hb
      rcases mem_insertRuleDesc.1 hb with rfl | hbxs
      · omega
      · exact hx b hbxs

/-- The sorted rule chain is priority-descending. -/
theorem pairwise_sortRulesDesc (L : List ClassificationRule) :
    (sortRulesDesc L).Pairwise (fun a b => b.priority ≤ a.priority) := by
  induction L with
  | nil => simp [sortRulesDesc]
  | cons a l ih => exact pairwise_insertRuleDesc a _ ih

/-- How the first match moves across an insertion into a
priority-descending list: the inserted rule wins exactly when it
matches and no already-present match has strictly greater priority. -/
theorem find?_insertRuleDesc (p : ClassificationRule → Bool) (r : ClassificationRule)
    (L : List ClassificationRule)
    (h : L.Pairwise (fun a b => b.priority ≤ a.priority)) :
    (insertRuleDesc r L).find? p =
      if p r then
        match L.find? p with
        | some y => if y.priority ≤ r.priority then some r else some y
        | none => some r
      else L.find? p := by
  induction L with
  | nil =>
    cases hr : p r <;> simp [insertRuleDesc, List.find?, hr]
  | cons x xs ih =>
    rw [List.pairwise_cons] at h
    obtain ⟨hx, hxs⟩ := h
    unfold insertRuleDesc
    by_cases hp : x.priority ≤ r.priority
    · rw [if_pos hp]
      cases hr : p r with
      | true =>
        cases hf : (x :: xs).find? p with
        | none => simp [List.find?_cons, hr, hf]
        | some y =>
          have hy : y.priority ≤ r.priority := by
            rcases List.mem_cons.1 (List.mem_of_find?_eq_some hf) with rfl | hyxs
            · exact hp
            · exact le_trans (hx y hyxs) hp
          simp [List.find?_cons, hr, hf, hy]
      | false =>
        simp [List.find?_cons, hr]
    · rw [if_neg hp]
      cases hpx : p x with
      | true =>
        have hnx : ¬(x.priority ≤ r.priority) := hp
        cases hr : p r <;> simp [List.find?_cons, hpx, hr, hnx]
      | false =>
        rw [List.find?_cons, hpx]
        rw [ih hxs]
        simp [List.find?_cons, hpx]

/-- Unfolding equation of `firstBestMatch` on a cons cell. -/
theorem firstBestMatch_cons (request_info : RequestInfo) (x : ClassificationRule)
    (xs : List ClassificationRule) :
    firstBestMatch request_info (x :: xs) =
      match firstBestMatch request_info xs with
      | none => if x.rule_matches request_info then some x else none
      | some y =>
        if x.rule_matches request_info then
          if x.priority < y.priority then some y else some x
        else some y := by
  simp only [firstBestMatch]

/-- The first match of the priority-sorted chain is the
maximal-priority, earliest-registered matching rule. -/
theorem find?_sortRulesDesc (request_info : RequestInfo) (rules : List ClassificationRule) :
    (sortRulesDesc rules).find? (fun r => r.rule_matches request_info) =
      firstBestMatch request_info rules := by
  induction rules with
  | nil => rfl
  | cons a l ih =>
    show (insertRuleDesc a (sortRulesDesc l)).find? _ = _
    rw [find?_insertRuleDesc _ a _ (pairwise_sortRulesDesc l), ih, firstBestMatch_cons]
    cases hb : firstBestMatch request_info l with
    | none => cases ha : a.rule_matches request_info <;> simp [ha]
    | some y =>
      cases ha : a.rule_matches request_info with
      | false => simp [ha]
      | true =>
        by_cases hle : y.priority ≤ a.priority
        · have hnlt : ¬(a.priority < y.priority) := by omega
          simp [ha, hle, hnlt]
        · have hlt : a.priority < y.priority := by omega
          simp [ha, hle, hlt]

/-- When no rule wins, no rule matches. -/
theorem firstBestMatch_none (request_info : RequestInfo) :
    ∀ l, firstBestMatch request_info l = none →
      ∀ r ∈ l, r.rule_matches request_info = false := by
  intro l
  induction l with
  | nil => simp
  | cons x xs ih =>
    intro h r hr
    rw [firstBestMatch_cons] at h
    split at h
    next hb =>
      split at h
      next => simp at h
      next hx =>
        rcases List.mem_cons.1 hr with rfl | hrxs
        · simpa using hx
        · exact ih hb r hrxs
    next y hb =>
      split at h
      next => split at h <;> simp at h
      next => simp at h

/-- The winning rule is a matching member of the list. -/
theorem firstBestMatch_mem (request_info : RequestInfo) :
    ∀ l w, firstBestMatch request_info l = some w →
      w ∈ l ∧ w.rule_matches request_info = true := by
  intro l
  induction l with
  | nil => intro w h; simp [firstBestMatch] at h
  | cons x xs ih =>
    intro w h
    rw [firstBestMatch_cons] at h
    split at h
    next hb =>
      split at h
      next hx =>
        injection h with h
        subst h
        exact ⟨List.mem_cons_self x xs, hx⟩
      next => simp at h
    next y hb =>
      obtain ⟨hym, hymat⟩ := ih y hb
      split at h
      next hx =>
        split at h
        all_goals injection h with h
        all_goals subst h
        · exact ⟨List.mem_cons_of_mem x hym, hymat⟩
        · exact ⟨List.mem_cons_self x xs, hx⟩
      next =>
        injection h with h
        subst h
        exact ⟨List.mem_cons_of_mem x hym, hymat⟩

/-- No matching rule has priority above the winner's. -/
theorem firstBestMatch_max (request_info : RequestInfo) :
    ∀ l w, firstBestMatch request_info l = some w →
      ∀ r ∈ l, r.rule_matches request_info = true → r.priority ≤ w.priority := by
  intro l
  induction l with
  | nil => intro w h; simp [firstBestMatch] at h
  | cons x xs ih =>
    intro w h r hr hrm
    rw [firstBestMatch_cons] at h
    split at h
    next hb =>
      split at h
      next hx =>
        injection h with h
        subst h
        rcases List.mem_cons.1 hr with rfl | hrxs
        · exact le_refl _
        · rw [firstBestMatch_none request_info xs hb r hrxs] at hrm
          simp at hrm
      next => simp at h
    next y hb =>
      split at h
      next hx =>
        split at h
        next hlt =>
          injection h with h
          subst h
          rcases List.mem_cons.1 hr with rfl | hrxs
          · omega
          · exact ih y hb r hrxs hrm
        next hlt =>
          injection h with h
          subst h
          rcases List.mem_cons.1 hr with rfl | hrxs
          · exact le_refl _
          · have := ih y hb r hrxs hrm
            omega
      next hx =>
        injection h with h
        subst h
        rcases List.mem_cons.1 hr with rfl | hrxs
        · exact absurd hrm hx
        · exact ih y hb r hrxs hrm

/-- C4: for any registration order of any rules, the classifier's
resolution equals picking the matching rule of strictly highest
priority, earliest-registered on priority ties — so whenever two
matching rules have different priorities, the higher-priority one
determines the persona regardless of registration order, and the winner
is the first matching predicate of the stable priority-descending
sort. -/
theorem c4_priority_precedence (rules : List ClassificationRule) (request_info : RequestInfo) :
    ((sortRulesDesc rules).find? (fun r => r.rule_matches request_info) =
      firstBestMatch request_info rules) ∧
    (∀ w, firstBestMatch request_info rules = some w →
      w ∈ rules ∧ w.rule_matches request_info = true ∧
      classifyWith rules request_info = w.honeypotType ∧
      ∀ r ∈ rules, r.rule_matches request_info = true → r.priority ≤ w.priority) := by
  have hfind := find?_sortRulesDesc request_info rules
  refine ⟨hfind, fun w hw => ?_⟩
  obtain ⟨hmem, hmat⟩ := firstBestMatch_mem request_info rules w hw
  refine ⟨hmem, hmat, ?_, firstBestMatch_max request_info rules w hw⟩
  unfold classifyWith
  rw [hfind, hw]

/-- C4 at a concrete input: with the lower-priority bot-trap rule
registered first and both rules matching, the admin-panel rule
(priority 90 over 70) still determines the persona. -/
theorem c4_priority_precedence_witness :
    classifyWith botFirstRules adminCurlRequest = .ADMIN_PANEL ∧
    botTrapRule.rule_matches adminCurlRequest = true ∧
    botTrapRule.priority ≤ adminPanelRule.priority := by
  have h := (c4_priority_precedence botFirstRules adminCurlRequest).2 adminPanelRule rfl
  exact ⟨h.2.2.1, by decide, by decide⟩

/-- Every path indicator is tagged `path` and carries the severity the
analyzer maps to its category. -/
theorem mem_analyzePath {path : String} {ind : ThreatIndicator} (h : ind ∈ analyzePath path) :
    ind.location = some "path" ∧
    ∃ cp ∈ THREAT_PATTERNS, ind.category = cp.1 ∧ ind.severity = getSeverityForCategory cp.1 := by
  simp only [analyzePath, List.mem_flatMap] at h
  obtain ⟨cp, hcp, pat, hpat, h⟩ := h
  split at h
  · rw [List.mem_singleton] at h
    subst h
    exact ⟨rfl, cp, hcp, rfl, rfl⟩
  · simp at h

/-- Every query-parameter indicator is tagged `query_params` and
carries the severity the analyzer maps to its category. -/
theorem mem_analyzeQueryParams {query_params : List (String × String)} {ind : ThreatIndicator}
    (h : ind ∈ analyzeQueryParams query_params) :
    ind.location = some "query_params" ∧
    ∃ cp ∈ THREAT_PATTERNS, ind.category = cp.1 ∧ ind.severity = getSeverityForCategory cp.1 := by
  simp only [analyzeQueryParams] at h
  split at h
  · simp at h
  · simp only [List.mem_flatMap] at h
    obtain ⟨cp, hcp, pat, hpat, h⟩ := h
    split at h
    · rw [List.mem_singleton] at h
      subst h
      exact ⟨rfl, cp, hcp, rfl, rfl⟩
    · simp at h

/-- Every body indicator is tagged `body` and carries the severity the
analyzer maps to its category. -/
theorem mem_analyzeBody {body : String} {ind : ThreatIndicator} (h : ind ∈ analyzeBody body) :
    ind.location = some "body" ∧
    ∃ cp ∈ THREAT_PATTERNS, ind.category = cp.1 ∧ ind.severity = getSeverityForCategory cp.1 := by
  simp only [analyzeBody] at h
  split at h
  · simp at h
  · simp only [List.mem_flatMap] at h
    obtain ⟨cp, hcp, pat, hpat, h⟩ := h
    split at h
    · rw [List.mem_singleton] at h
      subst h
      exact ⟨rfl, cp, hcp, rfl, rfl⟩
    · simp at h

/-- Every header indicator is tagged `headers` and carries the severity
the analyzer maps to its category. -/
theorem mem_analyzeHeaders {headers : List (String × String)} {ind : ThreatIndicator}
    (h : ind ∈ analyzeHeaders headers) :
    ind.location = some "headers" ∧
    ∃ cp ∈ THREAT_PATTERNS, ind.category = cp.1 ∧ ind.severity = getSeverityForCategory cp.1 := by
  simp only [analyzeHeaders, List.mem_flatMap] at h
  obtain ⟨cp, hcp, pat, hpat, h⟩ := h
  split at h
  · rw [List.mem_singleton] at h
    subst h
    exact ⟨rfl, cp, hcp, rfl, rfl⟩
  · simp at h

/-- Every user-agent indicator is tagged `user_agent` and is a
`security_tool`/MEDIUM or `automated_tool`/LOW indicator. -/
theorem mem_analyzeUserAgent {user_agent : String} {ind : ThreatIndicator}
    (h : ind ∈ analyzeUserAgent user_agent) :
    ind.location = some "user_agent" ∧
    ((ind.category = "security_tool" ∧ ind.severity = .MEDIUM) ∨
     (ind.category = "automated_tool" ∧ ind.severity = .LOW)) := by
  simp only [analyzeUserAgent] at h
  split at h
  · simp at h
  · rw [List.mem_append] at h
    rcases h with h | h
    · simp only [List.mem_flatMap] at h
      obtain ⟨tool, htool, h⟩ := h
      split at h
      · rw [List.mem_singleton] at h
        subst h
        exact ⟨rfl, Or.inl ⟨rfl, rfl⟩⟩
      · simp at h
    · simp only [List.mem_flatMap] at h
      obtain ⟨tool, htool, h⟩ := h
      split at h
      · rw [List.mem_singleton] at h
        subst h
        exact ⟨rfl, Or.inr ⟨rfl, rfl⟩⟩
      · simp at h

/-- The analyzer's category-to-severity function agrees with the
specification's table on every pattern category. -/
theorem categorySeverityAgrees :
    ∀ cp ∈ THREAT_PATTERNS, ((cp.1, getSeverityForCategory cp.1) ∈ severityClaimTable) := by
  decide

/-- C5: every indicator the detection engine produces carries exactly
the severity the specification's table fixes for its category —
sql_injection/xss/directory_traversal/file_inclusion are HIGH,
command_injection CRITICAL, obfuscation and security_tool MEDIUM,
automated_tool LOW. -/
theorem c5_severity_table (request_info : RequestInfo) (ind : ThreatIndicator)
    (h : ind ∈ analyze_request request_info) :
    (ind.category, ind.severity) ∈ severityClaimTable := by
  unfold analyze_request at h
  simp only [List.mem_append] at h
  rcases h with (((h | h) | h) | h) | h
  · obtain ⟨-, cp, hcp, hcat, hsev⟩ := mem_analyzePath h
    rw [hcat, hsev]
    exact categorySeverityAgrees cp hcp
  · obtain ⟨-, cp, hcp, hcat, hsev⟩ := mem_analyzeQueryParams h
    rw [hcat, hsev]
    exact categorySeverityAgrees cp hcp
  · obtain ⟨-, cp, hcp, hcat, hsev⟩ := mem_analyzeBody h
    rw [hcat, hsev]
    exact categorySeverityAgrees cp hcp
  · obtain ⟨-, cp, hcp, hcat, hsev⟩ := mem_analyzeHeaders h
    rw [hcat, hsev]
    exact categorySeverityAgrees cp hcp
  · obtain ⟨-, hca⟩ := mem_analyzeUserAgent h
    rcases hca with ⟨h1, h2⟩ | ⟨h1, h2⟩ <;> rw [h1, h2] <;> decide

/-- C5 at a concrete input: the `directory_traversal` indicator
produced for path `/etc/passwd` carries a table row. -/
theorem c5_severity_table_witness :
    (passwdIndicator.category, passwdIndicator.severity) ∈ severityClaimTable :=
  c5_severity_table passwdRequest passwdIndicator (by decide)

/-- C6 (amended): the category patterns are applied to four surfaces
(path, query parameters, body, headers) but not to the user agent,
which is scanned only for security-tool names and automation keywords —
so every indicator tagged `user_agent` is a `security_tool`/MEDIUM or
`automated_tool`/LOW indicator, never a category-pattern one. -/
theorem c6_user_agent_scan (request_info : RequestInfo) (ind : ThreatIndicator)
    (h : ind ∈ analyze_request request_info) (hloc : ind.location = some "user_agent") :
    (ind.category = "security_tool" ∧ ind.severity = .MEDIUM) ∨
    (ind.category = "automated_tool" ∧ ind.severity = .LOW) := by
  unfold analyze_request at h
  simp only [List.mem_append] at h
  rcases h with (((h | h) | h) | h) | h
  · rw [(mem_analyzePath h).1] at hloc
    exact absurd hloc (by decide)
  · rw [(mem_analyzeQueryParams h).1] at hloc
    exact absurd hloc (by decide)
  · rw [(mem_analyzeBody h).1] at hloc
    exact absurd hloc (by decide)
  · rw [(mem_analyzeHeaders h).1] at hloc
    exact absurd hloc (by decide)
  · exact (mem_analyzeUserAgent h).2

/-- C6 (amended) at a concrete input: the indicator produced for the
`sqlmap` user agent is `security_tool`/MEDIUM. -/
theorem c6_user_agent_scan_witness :
    (sqlmapIndicator.category = "security_tool" ∧ sqlmapIndicator.severity = .MEDIUM) ∨
    (sqlmapIndicator.category = "automated_tool" ∧ sqlmapIndicator.severity = .LOW) :=
  c6_user_agent_scan sqlmapRequest sqlmapIndicator (by decide) rfl

/-- C6 counterexample: a user agent containing the `xss` pattern
`<script` produces no indicator at all — the claim predicts an `xss`
indicator tagged `user_agent`, but the user-agent surface is never
tested against the category patterns. -/
theorem c6_counterexample :
    searchB (lits "<script") (pyUnquote scriptAgentRequest.user_agent).toList = true ∧
    analyze_request scriptAgentRequest = [] :=
  ⟨by decide, by decide⟩

end Honeypot
